import Mathlib

/-!
Verification development for the seo_assessment repository
(sqlite_version: CSV ingestion utility, SQL script executor, and the
pipeline orchestrator).

The Python sources are shallowly embedded as executable Lean functions:

* `ingest_csv_to_sqlite` and its helpers model
  `Utilities/ingest_csv_to_sqlite.py`.  The SQLite connection is modelled
  explicitly: `cursor.execute` on an INSERT appends to a pending
  (uncommitted) buffer, `conn.commit` moves the whole pending buffer into
  the committed database state, and `conn.close` discards whatever is
  still pending (this is exactly the sqlite3 transaction behaviour the
  script relies on, and is load-bearing for the per-file atomicity
  question).
* `execute_sql_file` models `Utilities/execute_sqlite_sql.py`; the SQLite
  engine itself is an opaque collaborator (`SqlEnv.run`) that may fail
  with a message, as may reading the script file.
* `run_pipeline` and the stage helpers model `seo_pipeline.py`; the
  collaborator outcomes (ingestion results, per-script SQL results,
  export success) are supplied by a `PipeEnv`, and the model additionally
  returns the list of collaborator calls performed, in order, so that
  "stage X is never invoked" becomes a statement about that list.

Wall-clock reads (`datetime.now()`) are modelled by a `Nat` clock that is
threaded through and incremented at each read; `dateStr`/`tsStr` turn a
clock tick into the date / timestamp string the Python code would embed.
MD5 hashing of a file name (`get_file_id`) is modelled by an injective
tagging function `md5hash`; no claim depends on the hash value itself.
CSV files are modelled as a header plus a list of data rows; a malformed
row is one whose field count differs from the header, which makes the
parameter binding in `cursor.execute` raise, exactly as in the source.
-/

namespace SeoAssessment

/-- Boolean test that the first character list is a leading segment of the
second (used to model glob matching on plain names). -/
def hasPref : List Char → List Char → Bool
  | [], _ => true
  | _ :: _, [] => false
  | p :: ps, c :: cs => p == c && hasPref ps cs

/-- Boolean test that `s` is a trailing segment of `l`. -/
def hasSuf (s l : List Char) : Bool := hasPref s.reverse l.reverse

/-- Model of matching a file name against the glob pattern
`<pref>*.csv` built at line 159 of `ingest_csv_to_sqlite.py`: the name
must start with `pref` and the remainder must end in `.csv`.  Glob
metacharacters inside `pref` are not modelled (the configured values are
plain name stems). -/
def globMatch (pref name : String) : Bool :=
  hasPref pref.data name.data && hasSuf ".csv".data (name.data.drop pref.data.length)

/-- Model of `os.path.join` for a directory with no trailing slash. -/
def joinPath (a b : String) : String := a ++ "/" ++ b

/-- Model of `os.path.basename`: the part of the path after the last
slash. -/
def baseName (p : String) : String :=
  ⟨(p.data.reverse.takeWhile (fun c => c ≠ '/')).reverse⟩

/-- Model of `hashlib.md5(name.encode()).hexdigest()` in `get_file_id`:
an injective tag of the name.  No claim depends on the concrete digest. -/
def md5hash (s : String) : String := "md5-" ++ s

/-- Model of the current date string, `datetime.now().strftime` with the
year-month-day format, at clock tick `n`. -/
def dateStr (n : Nat) : String := "date-" ++ n.repr

/-- Model of `datetime.now().isoformat()` at clock tick `n`. -/
def tsStr (n : Nat) : String := "ts-" ++ n.repr

/-- The message of the sqlite3 exception raised when the number of bound
values does not match the number of placeholders (the way a malformed CSV
row surfaces in `ingest_csv_to_sqlite.py`). -/
def bindErrMsg : String := "Incorrect number of bindings supplied"

/-- A CSV file as the loader sees it: its plain name (within the source
directory), the header row, and the data rows.  The loader reads the
header with `next(reader)`, so files are modelled as having a header. -/
structure CsvFile where
  name : String
  header : List String
  rows : List (List String)
deriving DecidableEq

/-- One row of the `log_file_dtl` ledger table, as inserted by
`log_ingestion` (timestamps are clock ticks). -/
structure LedgerEntry where
  file_id : String
  file_name : String
  status : String
  created_ts : Nat
  created_user : String
  data_date : String
  run_date : Nat
deriving DecidableEq

/-- The committed state of the SQLite database: the target staging table
(its column names and rows) and the `log_file_dtl` ledger.
`ledgerExists = false` models the situation in which any statement
touching `log_file_dtl` raises (e.g. the table was never created). -/
structure Db where
  schemaCols : List String
  table : List (List String)
  ledgerExists : Bool
  ledger : List LedgerEntry
deriving DecidableEq

/-- An open sqlite3 connection: the committed database plus the inserts
executed but not yet committed in the current transaction. -/
structure Conn where
  db : Db
  pendingRows : List (List String)
  pendingLedger : List LedgerEntry
deriving DecidableEq

/-- `conn.commit()`: every pending insert becomes committed. -/
def Conn.commit (c : Conn) : Conn :=
  { c with
    db := { c.db with
            table := c.db.table ++ c.pendingRows,
            ledger := c.db.ledger ++ c.pendingLedger },
    pendingRows := [], pendingLedger := [] }

/-- `conn.close()` without a prior commit: pending inserts are discarded. -/
def Conn.close (c : Conn) : Db := c.db

/-- One element of the per-file `results` list built by
`ingest_csv_to_sqlite` (`status` is "success" or "error"). -/
structure FileResult where
  file : String
  status : String
  message : Option String
deriving DecidableEq

/-- The dictionary returned by `ingest_csv_to_sqlite`, one constructor
per return site (lines 153, 163, 183, 277, 285 of the source). -/
inductive IngestResult where
  | error (message : String)
  | warning (message : String)
  | skipped (message : String) (matched_files : Nat)
  | partialRes (succeeded failed skippedCount : Nat) (results : List FileResult)
  | success (succeeded failed skippedCount : Nat) (results : List FileResult)
deriving DecidableEq

/-- `get_already_ingested_files`: the `file_name` of every ledger row
with status `completed`; if the query raises (ledger table missing) the
exception is caught and the empty list returned. -/
def get_already_ingested_files (c : Conn) : List String :=
  if c.db.ledgerExists then
    (c.db.ledger.filter (fun e => e.status == "completed")).map (fun e => e.file_name)
  else []

/-- `log_ingestion`: insert one ledger row and commit.  The values
(including two or three `datetime.now()` reads) are computed first; if
the INSERT raises (no ledger table) the exception is caught and the
connection is left untouched — in particular no commit happens. -/
def log_ingestion (c : Conn) (file_path status : String) (d_date : Option String)
    (clk : Nat) : Conn × Nat :=
  let file_id := md5hash (baseName file_path)
  let current_time := clk
  let (dd, clk1) := match d_date with
    | some d => (d, clk + 1)
    | none => (dateStr (clk + 1), clk + 2)
  let run_date := clk1
  let clk2 := clk1 + 1
  if c.db.ledgerExists then
    let e : LedgerEntry :=
      { file_id := file_id, file_name := file_path, status := status,
        created_ts := current_time, created_user := "admin",
        data_date := dd, run_date := run_date }
    (Conn.commit { c with pendingLedger := c.pendingLedger ++ [e] }, clk2)
  else
    (c, clk2)

/-- `get_column_names`: the header row of the CSV file. -/
def get_column_names (f : CsvFile) : List String := f.header

/-- The row-insert loop of `ingest_csv_to_sqlite` (lines 226-234): each
row is bound against `expect` CSV placeholders (plus the audit
placeholders, matching the `extra` values appended to the row); a row
with the wrong field count makes `cursor.execute` raise, which aborts
the loop.  Returns the connection with the inserted rows pending and
whether the whole file was inserted. -/
def insertRows (c : Conn) (expect : Nat) (extra : List String) :
    List (List String) → Conn × Bool
  | [] => (c, true)
  | r :: rs =>
    if r.length = expect then
      insertRows { c with pendingRows := c.pendingRows ++ [r ++ extra] } expect extra rs
    else (c, false)

/-- The per-file body of the ingestion loop (lines 197-258): read the
header, detect audit mode from the target schema, insert all rows, and
either commit and write a `completed` ledger entry, or (on the exception
raised by a malformed row) write a `failed` ledger entry without
committing the data rows first.  Returns the connection, whether the
file succeeded, and the advanced clock. -/
def processFile (c : Conn) (file_path : String) (f : CsvFile) (dd : String)
    (clk : Nat) : Conn × Bool × Nat :=
  let columns := get_column_names f
  let has_audit_columns := c.db.schemaCols.contains "data_date"
  let (extra, clk1) :=
    if has_audit_columns then ([dd, tsStr clk], clk + 1) else ([], clk)
  let (c1, ok) := insertRows c columns.length extra f.rows
  if ok then
    let (c2, clk2) := log_ingestion (Conn.commit c1) file_path "completed" (some dd) clk1
    (c2, true, clk2)
  else
    let (c2, clk2) := log_ingestion c1 file_path "failed" (some dd) clk1
    (c2, false, clk2)

/-- The loop over `new_files` (lines 196-265): processes each file in
order, accumulating the success count, the error count and the per-file
results list. -/
def processFiles (c : Conn) (dirPath dd : String) (clk : Nat) :
    List CsvFile → Conn × Nat × Nat × List FileResult × Nat
  | [] => (c, 0, 0, [], clk)
  | f :: fs =>
    let fp := joinPath dirPath f.name
    let (c1, ok, clk1) := processFile c fp f dd clk
    let r : FileResult :=
      if ok then { file := fp, status := "success", message := none }
      else { file := fp, status := "error", message := some bindErrMsg }
    let (c2, sc, ec, rs, clk2) := processFiles c1 dirPath dd clk1 fs
    (c2, (if ok then sc + 1 else sc), (if ok then ec else ec + 1), r :: rs, clk2)

/-- The glob step: the files of the directory whose names match
`<pref>*.csv`, in directory order. -/
def matchingOf (files : List CsvFile) (pref : String) : List CsvFile :=
  files.filter (fun f => globMatch pref f.name)

/-- The set-difference step (lines 175-178): matching files whose full
path has no `completed` ledger entry. -/
def newFilesOf (dirPath : String) (ingested : List String)
    (matching : List CsvFile) : List CsvFile :=
  matching.filter (fun f => !(ingested.contains (joinPath dirPath f.name)))

/-- The body of `ingest_csv_to_sqlite` from the point where the matching
file list is known (lines 162-291): warn on no matches, open the
connection, consult the ledger, skip if nothing is new, otherwise process
every new file and aggregate. -/
def ingest_core (dirPath pref dd : String) (db : Db) (clk : Nat)
    (matching : List CsvFile) : IngestResult × Db × Nat :=
  if matching.isEmpty then
    (.warning ("No files matching pattern " ++ joinPath dirPath (pref ++ "*.csv") ++ " found"),
     db, clk)
  else
    let c : Conn := { db := db, pendingRows := [], pendingLedger := [] }
    let ingested := get_already_ingested_files c
    let newFiles := newFilesOf dirPath ingested matching
    if newFiles.isEmpty then
      (.skipped "All matching files already ingested" matching.length, Conn.close c, clk)
    else
      let (c2, sc, ec, results, clk2) := processFiles c dirPath dd clk newFiles
      let db2 := Conn.close c2
      if ec > 0 then
        (.partialRes sc ec (matching.length - newFiles.length) results, db2, clk2)
      else
        (.success sc 0 (matching.length - newFiles.length) results, db2, clk2)

/-- `ingest_csv_to_sqlite`: resolve the batch date, check the directory
(`none` models a missing directory), glob, and run the core.  The target
table name parameter of the source selects the staging table; the model
fixes a single target table (`Db.schemaCols` / `Db.table`), which is
faithful for any one run. -/
def ingest_csv_to_sqlite (dir : Option (List CsvFile)) (dirPath pref : String)
    (db : Db) (d_date : Option String) (clk : Nat) : IngestResult × Db × Nat :=
  let (dd, clk0) := match d_date with
    | some d => (d, clk)
    | none => (dateStr clk, clk + 1)
  match dir with
  | none => (.error ("Directory not found: " ++ dirPath), db, clk0)
  | some files => ingest_core dirPath pref dd db clk0 (matchingOf files pref)

/-! ## SQL Script Executor (`Utilities/execute_sqlite_sql.py`) -/

/-- The dictionary returned by `execute_sql_file`, one constructor per
return site.  The early return for a missing script file (lines 56-60)
builds a dictionary with a message but no `file_name` key, hence the
separate `errorNoName` constructor. -/
inductive ExecResult where
  | success (file_name data_date : String)
  | errorNoName (message : String)
  | error (message : String) (file_name : String)
deriving DecidableEq

/-- The collaborators of `execute_sql_file`: whether `os.path.exists`
holds for the script, the outcome of reading its text (reading may
raise), and the SQLite engine executing the combined script text (which
may raise with a message; connecting, `executescript`, commit and close
are folded into this one opaque step). -/
structure SqlEnv where
  fileExists : Bool
  readFile : Except String String
  run : String → Except String Unit

/-- The comment block prepended to the script text (lines 72-76),
recording the batch date. -/
def varDecl (dd : String) : String :=
  "\n-- Set data_date parameter to \x27" ++ dd ++ "\x27\n"

/-- `execute_sql_file`: missing file short-circuits to an error without
a file name; otherwise the batch date is defaulted, the script text read
and prefixed, and the engine run; every raise inside the body is caught
and turned into an error carrying the base name. -/
def execute_sql_file (env : SqlEnv) (sql_file_path : String)
    (d_date : Option String) (clk : Nat) : ExecResult :=
  let errName := if sql_file_path ≠ "" then baseName sql_file_path else "unknown"
  if !env.fileExists then
    .errorNoName ("SQL file not found: " ++ sql_file_path)
  else
    let dd := match d_date with
      | some d => d
      | none => dateStr clk
    match env.readFile with
    | .error msg => .error msg errName
    | .ok content =>
      match env.run (varDecl dd ++ content) with
      | .error msg => .error msg errName
      | .ok _ => .success (baseName sql_file_path) dd

/-! ## Pipeline Orchestrator (`seo_pipeline.py`) -/

/-- The three ingestion stages of step 1. -/
inductive Dataset where
  | gsc
  | analytics
  | rank
deriving DecidableEq

/-- One collaborator call performed by the orchestrator: a call to
`ingest_csv_to_sqlite` for a dataset, a call to `execute_sql_file` for a
script path, or the write of the export CSV file (into the export
directory). -/
inductive Event where
  | ingestCall (d : Dataset)
  | scriptCall (path : String)
  | exportWrite (dir : String)
deriving DecidableEq

/-- The configuration values `run_pipeline` and its stage helpers read
from the loaded YAML mapping. -/
structure PipeConfig where
  db_path : String
  data_dir : String
  gsc_dir : String
  gsc_pref : String
  analytics_dir : String
  analytics_pref : String
  rank_dir : String
  rank_pref : String
  transform_dir : String
  transform_gsc : String
  transform_analytics : String
  transform_rank : String
  join_dir : String
  join_gsc_analytics : String
  join_gsc_rank : String
  fact_dir : String
  fact_seo : String
  export_csv : Bool
  export_dir : String
  processing_data_date : Option String

/-- The collaborator outcomes for one orchestrator run: the result each
ingestion stage would return, the result of executing each SQL script
(keyed by its path and the batch date passed), and whether the export
body (directory creation, query, file write) succeeds. -/
structure PipeEnv where
  ingestRes : Dataset → IngestResult
  sqlRes : String → String → ExecResult
  exportOk : Bool

/-- Whether a script execution result has status `success` (the only
field of the result dictionary the orchestrator inspects). -/
def execOk : ExecResult → Bool
  | .success _ _ => true
  | _ => false

/-- The script loop shared by `run_transformations` and `run_joins`
(lines 84-91 and 104-112): execute every script in order, count the
successes; also record the calls made. -/
def scriptLoop (env : PipeEnv) (dd : String) : List String → Nat × List Event
  | [] => (0, [])
  | s :: ss =>
    let r := env.sqlRes s dd
    let (n, evs) := scriptLoop env dd ss
    ((if execOk r then 1 else 0) + n, .scriptCall s :: evs)

/-- The fixed ordered transform script list (lines 78-82). -/
def transformScripts (cfg : PipeConfig) : List String :=
  [joinPath cfg.transform_dir cfg.transform_gsc,
   joinPath cfg.transform_dir cfg.transform_analytics,
   joinPath cfg.transform_dir cfg.transform_rank]

/-- The fixed ordered join script list (lines 100-103). -/
def joinScripts (cfg : PipeConfig) : List String :=
  [joinPath cfg.join_dir cfg.join_gsc_analytics,
   joinPath cfg.join_dir cfg.join_gsc_rank]

/-- `run_transformations`: the stage succeeds iff the success count
equals the script count. -/
def run_transformations (cfg : PipeConfig) (env : PipeEnv) (dd : String) :
    Bool × List Event :=
  let scripts := transformScripts cfg
  let (n, evs) := scriptLoop env dd scripts
  (n == scripts.length, evs)

/-- `run_joins`: the stage succeeds iff the success count equals the
script count. -/
def run_joins (cfg : PipeConfig) (env : PipeEnv) (dd : String) :
    Bool × List Event :=
  let scripts := joinScripts cfg
  let (n, evs) := scriptLoop env dd scripts
  (n == scripts.length, evs)

/-- `create_fact_table`: executes exactly one script. -/
def create_fact_table (cfg : PipeConfig) (env : PipeEnv) (dd : String) :
    Bool × List Event :=
  let script := joinPath cfg.fact_dir cfg.fact_seo
  (execOk (env.sqlRes script dd), [.scriptCall script])

/-- `export_fact_table`: disabled export returns success immediately and
writes nothing; enabled export writes the file on success, and a raise
anywhere in the body is caught and returns failure (the model places the
failure before the file write). -/
def export_fact_table (cfg : PipeConfig) (env : PipeEnv) : Bool × List Event :=
  if !cfg.export_csv then (true, [])
  else if env.exportOk then (true, [.exportWrite cfg.export_dir])
  else (false, [])

/-- The acceptance test applied to each ingestion stage result (lines
197-200 etc.): status `success` or `skipped`, or `partial` with at least
one succeeded file. -/
def ingestOk : IngestResult → Bool
  | .success _ _ _ _ => true
  | .skipped _ _ => true
  | .partialRes succeeded _ _ _ => decide (0 < succeeded)
  | _ => false

/-- The batch date resolution at the top of `run_pipeline` (lines
176-181): parameter, else configuration, else current date. -/
def resolveDataDate (cfg : PipeConfig) (d_date : Option String) (clk : Nat) : String :=
  match d_date with
  | some d => d
  | none =>
    match cfg.processing_data_date with
    | some d => d
    | none => dateStr clk

/-- `run_pipeline`: the staged state machine of lines 168-280, returning
the boolean the Python function returns together with the ordered list
of collaborator calls performed. -/
def run_pipeline (cfg : PipeConfig) (env : PipeEnv) (d_date : Option String)
    (clk : Nat) : Bool × List Event :=
  let _dd := resolveDataDate cfg d_date clk
  let gsc_result := env.ingestRes .gsc
  let ev1 : List Event := [.ingestCall .gsc]
  if !ingestOk gsc_result then (false, ev1)
  else
    let analytics_result := env.ingestRes .analytics
    let ev2 := ev1 ++ [Event.ingestCall .analytics]
    if !ingestOk analytics_result then (false, ev2)
    else
      let rank_result := env.ingestRes .rank
      let ev3 := ev2 ++ [Event.ingestCall .rank]
      if !ingestOk rank_result then (false, ev3)
      else
        let (transform_success, tEv) := run_transformations cfg env _dd
        let ev4 := ev3 ++ tEv
        if !transform_success then (false, ev4)
        else
          let (join_success, jEv) := run_joins cfg env _dd
          let ev5 := ev4 ++ jEv
          if !join_success then (false, ev5)
          else
            let (fact_success, fEv) := create_fact_table cfg env _dd
            let ev6 := ev5 ++ fEv
            if !fact_success then (false, ev6)
            else
              let (export_success, eEv) := export_fact_table cfg env
              (fact_success && export_success, ev6 ++ eEv)

/-! ## Helper lemmas about the ingestion model -/

/-- A CSV file is well formed when every data row has exactly the header
field count; this is precisely the condition under which every
`cursor.execute` binding in the insert loop succeeds. -/
def fileWf (f : CsvFile) : Bool :=
  f.rows.all (fun r => r.length == f.header.length)

/-- The audit values appended to each row of a file processed at clock
`clk` (empty when the target schema has no `data_date` column). -/
def auditExtra (c : Conn) (dd : String) (clk : Nat) : List String :=
  if c.db.schemaCols.contains "data_date" then [dd, tsStr clk] else []

theorem insertRows_snd (n : Nat) (extra : List String) :
    ∀ (rows : List (List String)) (c : Conn),
      (insertRows c n extra rows).2 = rows.all (fun r => r.length == n) := by
  intro rows
  induction rows with
  | nil => intro c; simp [insertRows]
  | cons r rs ih =>
    intro c
    by_cases h : r.length = n <;> simp [insertRows, h, ih]

theorem insertRows_fst (n : Nat) (extra : List String) :
    ∀ (rows : List (List String)) (c : Conn),
      rows.all (fun r => r.length == n) = true →
      (insertRows c n extra rows).1
        = { c with pendingRows := c.pendingRows ++ rows.map (fun r => r ++ extra) } := by
  intro rows
  induction rows with
  | nil => intro c _; simp [insertRows]
  | cons r rs ih =>
    intro c hall
    simp only [List.all_cons, Bool.and_eq_true, beq_iff_eq] at hall
    obtain ⟨h1, h2⟩ := hall
    simp [insertRows, h1, ih _ h2, List.append_assoc]


theorem processFile_ok (c : Conn) (fp : String) (f : CsvFile) (dd : String)
    (clk : Nat) : (processFile c fp f dd clk).2.1 = fileWf f := by
  rcases hins : insertRows c f.header.length
      (if c.db.schemaCols.contains "data_date" then [dd, tsStr clk] else []) f.rows
    with ⟨c1, ok⟩
  have hsnd := insertRows_snd f.header.length
      (if c.db.schemaCols.contains "data_date" then [dd, tsStr clk] else []) f.rows c
  rw [hins] at hsnd
  rcases haud : c.db.schemaCols.contains "data_date" with _ | _ <;>
    rw [haud] at hins <;>
    cases ok <;>
    simp_all [processFile, fileWf, get_column_names, haud]

/-- State of the connection after `log_ingestion`: with a ledger table
the pending transaction (data rows included) is committed together with
the new entry; without one nothing changes. -/
theorem log_ingestion_fst (c : Conn) (fp st : String) (dd : String) (clk : Nat) :
    (log_ingestion c fp st (some dd) clk).1
      = if c.db.ledgerExists then
          Conn.commit { c with pendingLedger := c.pendingLedger ++
            [{ file_id := md5hash (baseName fp), file_name := fp, status := st,
               created_ts := clk, created_user := "admin",
               data_date := dd, run_date := clk + 1 }] }
        else c := by
  rcases hl : c.db.ledgerExists with _ | _ <;> simp [log_ingestion, hl]

/-- Effect of a successful per-file run on the connection: the file
succeeds, the committed table gains the previously pending rows followed
by the rows of the file (stamped with the audit values when the schema
asks for them), nothing is left pending, and the schema and
ledger-existence flags are untouched. -/
theorem processFile_success (c : Conn) (fp : String) (f : CsvFile) (dd : String)
    (clk : Nat) (h : fileWf f = true) :
    (processFile c fp f dd clk).2.1 = true ∧
    (processFile c fp f dd clk).1.db.table
      = c.db.table ++ c.pendingRows ++ f.rows.map (fun r => r ++ auditExtra c dd clk) ∧
    (processFile c fp f dd clk).1.pendingRows = [] ∧
    (processFile c fp f dd clk).1.db.schemaCols = c.db.schemaCols ∧
    (processFile c fp f dd clk).1.db.ledgerExists = c.db.ledgerExists := by
  have hall : f.rows.all (fun r => r.length == f.header.length) = true := h
  have hfst := insertRows_fst f.header.length
    (if c.db.schemaCols.contains "data_date" then [dd, tsStr clk] else []) f.rows c hall
  have hsnd := insertRows_snd f.header.length
    (if c.db.schemaCols.contains "data_date" then [dd, tsStr clk] else []) f.rows c
  rcases hins : insertRows c f.header.length
      (if c.db.schemaCols.contains "data_date" then [dd, tsStr clk] else []) f.rows
    with ⟨c1, ok⟩
  rw [hins] at hfst hsnd
  simp only [hall] at hsnd
  subst hsnd
  rcases haud : c.db.schemaCols.contains "data_date" with _ | _ <;>
    rw [haud] at hins hfst <;>
    rcases hl : c.db.ledgerExists with _ | _ <;>
    simp_all [processFile, get_column_names, haud, log_ingestion_fst,
      auditExtra, Conn.commit, hl]


/-- Full characterization of the per-file loop: the success count, the
error count and the detail list are determined by the well-formedness of
each processed file (a file fails exactly when it has a malformed row),
independently of the connection state and the clock. -/
theorem processFiles_spec (dirPath dd : String) :
    ∀ (fs : List CsvFile) (c : Conn) (clk : Nat),
      (processFiles c dirPath dd clk fs).2.1 = (fs.filter (fun f => fileWf f)).length ∧
      (processFiles c dirPath dd clk fs).2.2.1 = (fs.filter (fun f => !fileWf f)).length ∧
      (processFiles c dirPath dd clk fs).2.2.2.1
        = fs.map (fun f =>
            if fileWf f then
              ({ file := joinPath dirPath f.name, status := "success",
                 message := none } : FileResult)
            else
              { file := joinPath dirPath f.name, status := "error",
                message := some bindErrMsg }) := by
  intro fs
  induction fs with
  | nil => intro c clk; simp [processFiles]
  | cons f fs ih =>
    intro c clk
    rcases hpf : processFile c (joinPath dirPath f.name) f dd clk with ⟨c1, ok, clk1⟩
    have hok : ok = fileWf f := by
      have := processFile_ok c (joinPath dirPath f.name) f dd clk
      rw [hpf] at this; exact this
    rcases hw : fileWf f with _ | _ <;>
      simp_all [processFiles, hpf, ih c1 clk1]

/-- When every processed file is well formed and nothing is pending, the
loop inserts exactly the rows of the files: the committed table grows by
the total row count and nothing is left uncommitted. -/
theorem processFiles_len (dirPath dd : String) :
    ∀ (fs : List CsvFile) (c : Conn) (clk : Nat),
      (∀ f ∈ fs, fileWf f = true) → c.pendingRows = [] →
      (processFiles c dirPath dd clk fs).1.db.table.length
          = c.db.table.length + (fs.map (fun f => f.rows.length)).sum ∧
      (processFiles c dirPath dd clk fs).1.pendingRows = [] := by
  intro fs
  induction fs with
  | nil => intro c clk _ hp; simp [processFiles, hp]
  | cons f fs ih =>
    intro c clk hall hp
    have hwf : fileWf f = true := hall f (by simp)
    have hs := processFile_success c (joinPath dirPath f.name) f dd clk hwf
    rcases hpf : processFile c (joinPath dirPath f.name) f dd clk with ⟨c1, ok, clk1⟩
    rw [hpf] at hs
    obtain ⟨hok, htab, hpend, _, _⟩ := hs
    simp only at hok htab hpend
    have hrest := ih c1 clk1 (fun g hg => hall g (by simp [hg])) hpend
    have hlen : c1.db.table.length = c.db.table.length + f.rows.length := by
      rw [htab, hp]; simp
    rcases hok' : ok with _ | _
    · rw [hok'] at hok; cases hok
    · simp only [processFiles, hpf, hok']
      constructor
      · have := hrest.1
        rw [this, hlen]
        simp [Nat.add_assoc]
      · exact hrest.2

/-- The core of the loader depends on the matching file list only
through its length and the resulting list of new files. -/
theorem ingest_core_congr (dirPath pref dd : String) (db : Db) (clk : Nat)
    (m1 m2 : List CsvFile)
    (hlen : m1.length = m2.length)
    (hnew : newFilesOf dirPath
              (get_already_ingested_files { db := db, pendingRows := [], pendingLedger := [] }) m1
          = newFilesOf dirPath
              (get_already_ingested_files { db := db, pendingRows := [], pendingLedger := [] }) m2) :
    ingest_core dirPath pref dd db clk m1 = ingest_core dirPath pref dd db clk m2 := by
  have hE : m1.isEmpty = m2.isEmpty := by
    cases m1 <;> cases m2 <;> simp_all
  simp only [ingest_core, hE, hnew, hlen]


/-! ## Claim C1 -/

/-- The directory of the C1 scenario: `gsc_a.csv` is valid, `gsc_b.csv`
has one valid leading row and then a malformed row (1 field against a
2-column header). -/
def c1FileA : CsvFile :=
  { name := "gsc_a.csv", header := ["c1", "c2"], rows := [["1", "2"], ["3", "4"]] }

/-- The malformed file of the C1 scenario. -/
def c1FileB : CsvFile :=
  { name := "gsc_b.csv", header := ["c1", "c2"], rows := [["5", "6"], ["7"]] }

/-- Initial database for the C1 scenario: target table without audit
columns, ledger table present and empty. -/
def c1Db : Db :=
  { schemaCols := ["c1", "c2"], table := [], ledgerExists := true, ledger := [] }

/-- The C1 ingestion run. -/
def c1Run : IngestResult × Db × Nat :=
  ingest_csv_to_sqlite (some [c1FileA, c1FileB]) "/data" "gsc_" c1Db
    (some "2025-01-01") 0

/-- C1: ingestion over a directory with a valid `A.csv` and a `B.csv`
with a malformed row does report `partial` with succeeded = 1 and
failed = 1 and does record a `failed` ledger entry for `B.csv` — but,
contrary to the claim, the valid leading row of `B.csv` IS present in
the target table after the run: writing the `failed` ledger entry calls
`conn.commit()` inside `log_ingestion`, which commits the pending
partial inserts of the failed file.  Ingestion is therefore not
all-or-nothing per file on this input. -/
theorem claim1_partial_commit_bug :
    c1Run.1 = .partialRes 1 1 0
      [{ file := "/data/gsc_a.csv", status := "success", message := none },
       { file := "/data/gsc_b.csv", status := "error", message := some bindErrMsg }]
  ∧ c1Run.2.1.ledger.map (fun e => (e.file_name, e.status))
      = [("/data/gsc_a.csv", "completed"), ("/data/gsc_b.csv", "failed")]
  ∧ ["5", "6"] ∈ c1Run.2.1.table := by
  decide

/-! ## Claim C2 -/

/-- C2: ingestion is idempotent with respect to the ledger.  First part:
if a matching file (placed anywhere in the directory) has a `completed`
ledger entry under its full path, the whole run — returned result,
final database, final clock — is unchanged no matter what that file
contains, i.e. the run performs zero row inserts and zero ledger writes
for that file.  Second part: if every matching file is already
completed, the loader returns the `skipped` result with the match count
and the database is returned untouched. -/
theorem claim2_ledger_idempotence :
    (∀ (dirPath pref : String) (l1 l2 : List CsvFile) (f : CsvFile)
       (rows2 : List (List String)) (db : Db) (d_date : Option String) (clk : Nat),
       db.ledgerExists = true →
       (∃ e, e ∈ db.ledger ∧ e.status = "completed" ∧
             e.file_name = joinPath dirPath f.name) →
       ingest_csv_to_sqlite (some (l1 ++ { f with rows := rows2 } :: l2))
           dirPath pref db d_date clk
         = ingest_csv_to_sqlite (some (l1 ++ f :: l2)) dirPath pref db d_date clk)
  ∧ (∀ (dirPath pref : String) (files : List CsvFile) (db : Db) (d : String) (clk : Nat),
       db.ledgerExists = true →
       matchingOf files pref ≠ [] →
       (∀ f ∈ matchingOf files pref, ∃ e, e ∈ db.ledger ∧ e.status = "completed" ∧
          e.file_name = joinPath dirPath f.name) →
       ingest_csv_to_sqlite (some files) dirPath pref db (some d) clk
         = (.skipped "All matching files already ingested"
              (matchingOf files pref).length, db, clk)) := by
  constructor
  · intro dirPath pref l1 l2 f rows2 db d_date clk hl hcomp
    obtain ⟨e, he, hst, hkey⟩ := hcomp
    have hkeymem : joinPath dirPath f.name ∈
        get_already_ingested_files { db := db, pendingRows := [], pendingLedger := [] } := by
      simp only [get_already_ingested_files, hl, if_true, List.mem_map]
      exact ⟨e, List.mem_filter.mpr ⟨he, by simp [hst]⟩, hkey⟩
    have hQ : (get_already_ingested_files
        { db := db, pendingRows := [], pendingLedger := [] }).contains
          (joinPath dirPath f.name) = true := by
      simpa [List.contains] using hkeymem
    have hlen : (matchingOf (l1 ++ { f with rows := rows2 } :: l2) pref).length
        = (matchingOf (l1 ++ f :: l2) pref).length := by
      rcases hP : globMatch pref f.name with _ | _ <;>
        simp [matchingOf, List.filter_append, List.filter_cons, hP]
    have hnew : newFilesOf dirPath
          (get_already_ingested_files { db := db, pendingRows := [], pendingLedger := [] })
          (matchingOf (l1 ++ { f with rows := rows2 } :: l2) pref)
        = newFilesOf dirPath
          (get_already_ingested_files { db := db, pendingRows := [], pendingLedger := [] })
          (matchingOf (l1 ++ f :: l2) pref) := by
      rcases hP : globMatch pref f.name with _ | _ <;>
        simp [newFilesOf, matchingOf, List.filter_append, List.filter_cons, hP, hQ, hkeymem]
    rcases d_date with _ | d <;>
      simp only [ingest_csv_to_sqlite] <;>
      exact ingest_core_congr dirPath pref _ db _ _ _ hlen hnew
  · intro dirPath pref files db d clk hl hne hall
    have hE : (matchingOf files pref).isEmpty = false := by
      rcases hm : matchingOf files pref with _ | ⟨a, as⟩
      · exact absurd hm hne
      · rfl
    have hNF : newFilesOf dirPath
        (get_already_ingested_files { db := db, pendingRows := [], pendingLedger := [] })
        (matchingOf files pref) = [] := by
      apply List.filter_eq_nil_iff.mpr
      intro g hg
      obtain ⟨e, he, hst, hkey⟩ := hall g hg
      have hkeymem : joinPath dirPath g.name ∈
          get_already_ingested_files { db := db, pendingRows := [], pendingLedger := [] } := by
        simp only [get_already_ingested_files, hl, if_true, List.mem_map]
        exact ⟨e, List.mem_filter.mpr ⟨he, by simp [hst]⟩, hkey⟩
      simpa [List.contains] using hkeymem
    simp [ingest_csv_to_sqlite, ingest_core, hE, hNF, Conn.close]

/-- Ledger entry used by the C2 witness. -/
def c2Entry : LedgerEntry :=
  { file_id := md5hash "a1.csv", file_name := "/d/a1.csv", status := "completed",
    created_ts := 0, created_user := "admin", data_date := "2025-01-01", run_date := 0 }

/-- Database used by the C2 witness. -/
def c2Db : Db :=
  { schemaCols := ["h"], table := [], ledgerExists := true, ledger := [c2Entry] }

/-- File used by the C2 witness. -/
def c2File : CsvFile := { name := "a1.csv", header := ["h"], rows := [["x"]] }

/-- Witness for C2 on concrete data: the run is unchanged when the
already-completed file gets different rows, and the all-completed run is
skipped with the database untouched. -/
theorem claim2_witness :
    ingest_csv_to_sqlite (some ([] ++ ({ c2File with rows := [["y"], ["z"]] } : CsvFile) :: []))
        "/d" "a" c2Db (some "2025-01-01") 5
      = ingest_csv_to_sqlite (some ([] ++ c2File :: [])) "/d" "a" c2Db (some "2025-01-01") 5
  ∧ ingest_csv_to_sqlite (some [c2File]) "/d" "a" c2Db (some "2025-01-01") 5
      = (.skipped "All matching files already ingested" 1, c2Db, 5) := by
  constructor
  · exact claim2_ledger_idempotence.1 "/d" "a" [] [] c2File [["y"], ["z"]] c2Db
      (some "2025-01-01") 5 rfl ⟨c2Entry, by decide, rfl, by decide⟩
  · have hm : matchingOf [c2File] "a" = [c2File] := by decide
    have h2 := claim2_ledger_idempotence.2 "/d" "a" [c2File] c2Db "2025-01-01" 5 rfl
      (by decide) ?_
    · rw [hm] at h2
      exact h2
    · intro g hg
      rw [hm] at hg
      simp only [List.mem_singleton] at hg
      subst hg
      exact ⟨c2Entry, by decide, rfl, by decide⟩


/-! ## Claim C3 -/

/-- A directory whose single matching file has only a malformed row. -/
def c3BadFile : CsvFile :=
  { name := "s_bad.csv", header := ["c1", "c2"], rows := [["1"]] }

/-- Fresh database for the C3 runs. -/
def c3Db : Db :=
  { schemaCols := ["c1", "c2"], table := [], ledgerExists := true, ledger := [] }

/-- The C3 counterexample run: exactly one new file, and it fails. -/
def c3Run : IngestResult × Db × Nat :=
  ingest_csv_to_sqlite (some [c3BadFile]) "/d" "s_" c3Db (some "2025-01-01") 0

/-- Counterexample to C3 as stated: a run processing one new file whose
only row is malformed returns status `partial` with succeeded = 0 —
so `partial` is NOT returned exactly when some files succeeded and some
failed; it is returned whenever at least one file failed. -/
theorem claim3_counterexample :
    c3Run.1 = .partialRes 0 1 0
      [{ file := "/d/s_bad.csv", status := "error", message := some bindErrMsg }] := by
  decide

/-- C3 (amended): for every run that processes at least one new file,
the status is `success` (with failed = 0) exactly when no processed file
failed, and `partial` (with a positive failed count) exactly when at
least one processed file failed — regardless of whether any succeeded —
and in both cases the result carries the per-file detail list, one entry
per processed file in order. -/
theorem claim3_aggregation :
    ∀ (files : List CsvFile) (dirPath pref : String) (db : Db) (d : String)
      (clk : Nat) (nf : List CsvFile),
      nf = newFilesOf dirPath
             (get_already_ingested_files { db := db, pendingRows := [], pendingLedger := [] })
             (matchingOf files pref) →
      matchingOf files pref ≠ [] →
      nf ≠ [] →
      ((∃ sc k rs, (ingest_csv_to_sqlite (some files) dirPath pref db (some d) clk).1
            = .success sc 0 k rs)
          ↔ (nf.filter (fun f => !fileWf f)).length = 0)
    ∧ ((∃ sc fc k rs, (ingest_csv_to_sqlite (some files) dirPath pref db (some d) clk).1
            = .partialRes sc fc k rs ∧ 0 < fc)
          ↔ 0 < (nf.filter (fun f => !fileWf f)).length)
    ∧ (∃ sc fc k,
        (ingest_csv_to_sqlite (some files) dirPath pref db (some d) clk).1
            = .success sc fc k (nf.map (fun f =>
                if fileWf f then
                  ({ file := joinPath dirPath f.name, status := "success",
                     message := none } : FileResult)
                else
                  { file := joinPath dirPath f.name, status := "error",
                    message := some bindErrMsg }))
        ∨ (ingest_csv_to_sqlite (some files) dirPath pref db (some d) clk).1
            = .partialRes sc fc k (nf.map (fun f =>
                if fileWf f then
                  ({ file := joinPath dirPath f.name, status := "success",
                     message := none } : FileResult)
                else
                  { file := joinPath dirPath f.name, status := "error",
                    message := some bindErrMsg }))) := by
  intro files dirPath pref db d clk nf hnf hmne hnfne
  have hE : (matchingOf files pref).isEmpty = false := by
    rcases hm : matchingOf files pref with _ | ⟨a, as⟩
    · exact absurd hm hmne
    · rfl
  have hNE : nf.isEmpty = false := by
    rcases hm : nf with _ | ⟨a, as⟩
    · exact absurd hm hnfne
    · rfl
  have hspec := processFiles_spec dirPath d nf
    { db := db, pendingRows := [], pendingLedger := [] } clk
  rcases hP : processFiles { db := db, pendingRows := [], pendingLedger := [] }
      dirPath d clk nf with ⟨c2, sc, ec, rs, clk2⟩
  rw [hP] at hspec
  simp only at hspec
  obtain ⟨hsc, hec, hrs⟩ := hspec
  simp only [ingest_csv_to_sqlite, ingest_core, hE, Bool.false_eq_true, if_false,
    ← hnf, hNE, hP]
  rcases Nat.eq_zero_or_pos ec with hz | hpos
  · subst hz
    simp only [gt_iff_lt, Nat.lt_irrefl, if_false]
    refine ⟨by simp [← hec], by simp [← hec], sc, 0, (matchingOf files pref).length - nf.length, ?_⟩
    left
    rw [hrs]
  · have hgt : ec > 0 := hpos
    simp only [gt_iff_lt, hgt, if_true]
    refine ⟨?_, ?_, sc, ec, (matchingOf files pref).length - nf.length, ?_⟩
    · constructor
      · rintro ⟨a, b, g, heq⟩
        cases heq
      · intro h0
        rw [← hec] at h0
        omega
    · constructor
      · intro _
        rw [← hec]
        exact hpos
      · intro _
        exact ⟨sc, ec, (matchingOf files pref).length - nf.length, rs, rfl, hpos⟩
    · right
      rw [hrs]


/-- A well-formed matching file for the C3 witness. -/
def c3GoodFile : CsvFile :=
  { name := "s_ok.csv", header := ["c1", "c2"], rows := [["1", "2"]] }

/-- Witness for the amended C3 on a concrete run with one succeeding
and one failing file. -/
theorem claim3_witness :
    ((∃ sc k rs, (ingest_csv_to_sqlite (some [c3GoodFile, c3BadFile]) "/d" "s_" c3Db
            (some "2025-01-01") 0).1 = .success sc 0 k rs)
        ↔ (([c3GoodFile, c3BadFile].filter (fun f => !fileWf f)).length = 0))
  ∧ ((∃ sc fc k rs, (ingest_csv_to_sqlite (some [c3GoodFile, c3BadFile]) "/d" "s_" c3Db
            (some "2025-01-01") 0).1 = .partialRes sc fc k rs ∧ 0 < fc)
        ↔ 0 < ([c3GoodFile, c3BadFile].filter (fun f => !fileWf f)).length)
  ∧ (∃ sc fc k,
      (ingest_csv_to_sqlite (some [c3GoodFile, c3BadFile]) "/d" "s_" c3Db
          (some "2025-01-01") 0).1
          = .success sc fc k ([c3GoodFile, c3BadFile].map (fun f =>
              if fileWf f then
                ({ file := joinPath "/d" f.name, status := "success",
                   message := none } : FileResult)
              else
                { file := joinPath "/d" f.name, status := "error",
                  message := some bindErrMsg }))
      ∨ (ingest_csv_to_sqlite (some [c3GoodFile, c3BadFile]) "/d" "s_" c3Db
          (some "2025-01-01") 0).1
          = .partialRes sc fc k ([c3GoodFile, c3BadFile].map (fun f =>
              if fileWf f then
                ({ file := joinPath "/d" f.name, status := "success",
                   message := none } : FileResult)
              else
                { file := joinPath "/d" f.name, status := "error",
                  message := some bindErrMsg }))) :=
  claim3_aggregation [c3GoodFile, c3BadFile] "/d" "s_" c3Db "2025-01-01" 0
    [c3GoodFile, c3BadFile] (by decide) (by decide) (by decide)


/-! ## Helper lemmas about the orchestrator model -/

theorem scriptLoop_snd (env : PipeEnv) (dd : String) :
    ∀ ss : List String, (scriptLoop env dd ss).2 = ss.map Event.scriptCall := by
  intro ss
  induction ss with
  | nil => simp [scriptLoop]
  | cons s ss ih => simp [scriptLoop, ih]

theorem scriptLoop_fst (env : PipeEnv) (dd : String) :
    ∀ ss : List String,
      (scriptLoop env dd ss).1 = (ss.filter (fun s => execOk (env.sqlRes s dd))).length := by
  intro ss
  induction ss with
  | nil => simp [scriptLoop]
  | cons s ss ih =>
    rcases h : execOk (env.sqlRes s dd) with _ | _
    · simp [scriptLoop, List.filter_cons, h, ih]
    · simp [scriptLoop, List.filter_cons, h, ih]
      omega

theorem filterLen_eq_iff (l : List String) (p : String → Bool) :
    (l.filter p).length = l.length ↔ ∀ a ∈ l, p a = true := by
  induction l with
  | nil => simp
  | cons a as ih =>
    by_cases h : p a = true
    · simp [List.filter_cons, h, ih]
    · simp only [List.filter_cons, h, if_false, Bool.false_eq_true]
      have hle := List.length_filter_le p as
      constructor
      · intro heq
        exact absurd heq (by simp; omega)
      · intro hall
        exact absurd (hall a (by simp)) h

theorem run_transformations_fst (cfg : PipeConfig) (env : PipeEnv) (dd : String) :
    (run_transformations cfg env dd).1 = true ↔
      ∀ s ∈ transformScripts cfg, execOk (env.sqlRes s dd) = true := by
  simp only [run_transformations, scriptLoop_fst, beq_iff_eq]
  exact filterLen_eq_iff _ _

theorem run_joins_fst (cfg : PipeConfig) (env : PipeEnv) (dd : String) :
    (run_joins cfg env dd).1 = true ↔
      ∀ s ∈ joinScripts cfg, execOk (env.sqlRes s dd) = true := by
  simp only [run_joins, scriptLoop_fst, beq_iff_eq]
  exact filterLen_eq_iff _ _

theorem run_transformations_snd (cfg : PipeConfig) (env : PipeEnv) (dd : String) :
    (run_transformations cfg env dd).2 = (transformScripts cfg).map Event.scriptCall := by
  simp [run_transformations, scriptLoop_snd]

theorem run_joins_snd (cfg : PipeConfig) (env : PipeEnv) (dd : String) :
    (run_joins cfg env dd).2 = (joinScripts cfg).map Event.scriptCall := by
  simp [run_joins, scriptLoop_snd]

/-! ## Claim C5 -/

/-- C5: the orchestrator is fail-fast at each ingestion stage.  If GSC
ingestion does not pass the acceptance test (`success`, `skipped`, or
`partial` with at least one success), the pipeline returns overall
failure having performed only the GSC ingestion call; and the analytics
(resp. rank) ingestion call is performed only when every earlier
ingestion stage passed the test. -/
theorem claim5_fail_fast :
    ∀ (cfg : PipeConfig) (env : PipeEnv) (d : Option String) (clk : Nat),
      (ingestOk (env.ingestRes .gsc) = false →
        run_pipeline cfg env d clk = (false, [.ingestCall .gsc]))
    ∧ (Event.ingestCall .analytics ∈ (run_pipeline cfg env d clk).2 →
        ingestOk (env.ingestRes .gsc) = true)
    ∧ (Event.ingestCall .rank ∈ (run_pipeline cfg env d clk).2 →
        ingestOk (env.ingestRes .gsc) = true ∧
        ingestOk (env.ingestRes .analytics) = true) := by
  intro cfg env d clk
  refine ⟨fun h => by simp [run_pipeline, h], ?_, ?_⟩
  · intro hmem
    by_cases hg : ingestOk (env.ingestRes .gsc) = true
    · exact hg
    · rw [Bool.not_eq_true] at hg
      simp [run_pipeline, hg] at hmem
  · intro hmem
    by_cases hg : ingestOk (env.ingestRes .gsc) = true
    · by_cases ha : ingestOk (env.ingestRes .analytics) = true
      · exact ⟨hg, ha⟩
      · rw [Bool.not_eq_true] at ha
        simp [run_pipeline, hg, ha] at hmem
    · rw [Bool.not_eq_true] at hg
      simp [run_pipeline, hg] at hmem

/-- Configuration used by the C5 witness. -/
def c5Cfg : PipeConfig :=
  { db_path := "seo_assessment.db", data_dir := "Data", gsc_dir := "gsc",
    gsc_pref := "gsc_", analytics_dir := "analytics", analytics_pref := "an_",
    rank_dir := "rank", rank_pref := "rk_",
    transform_dir := "sql/transform", transform_gsc := "transform_gsc.sql",
    transform_analytics := "transform_analytics.sql",
    transform_rank := "transform_rank.sql",
    join_dir := "sql/join", join_gsc_analytics := "join_gsc_analytics.sql",
    join_gsc_rank := "join_gsc_rank.sql",
    fact_dir := "sql/fact", fact_seo := "fact_seo.sql",
    export_csv := true, export_dir := "output", processing_data_date := none }

/-- Collaborator outcomes for the C5 witness: GSC ingestion fails
totally (directory missing). -/
def c5Env : PipeEnv :=
  { ingestRes := fun _ => .error "Directory not found: Data/gsc",
    sqlRes := fun p _ => .success (baseName p) "2025-01-01",
    exportOk := true }

/-- Witness for C5: with a totally failed GSC ingestion the pipeline
returns failure immediately after the GSC call. -/
theorem claim5_witness :
    run_pipeline c5Cfg c5Env none 0 = (false, [.ingestCall .gsc]) :=
  (claim5_fail_fast c5Cfg c5Env none 0).1 rfl

/-! ## Claim C6 -/

/-- C6: the transform stage and the join stage each succeed exactly when
every script in their fixed ordered list reports success, and a failed
transform stage (with the ingestion stages passing) makes the pipeline
return overall failure with the trace ending at the transform scripts —
the join stage (and everything after it) is never invoked. -/
theorem claim6_stage_all_or_nothing :
    ∀ (cfg : PipeConfig) (env : PipeEnv) (dd : String) (d : Option String) (clk : Nat),
      ((run_transformations cfg env dd).1 = true ↔
        ∀ s ∈ transformScripts cfg, execOk (env.sqlRes s dd) = true)
    ∧ ((run_joins cfg env dd).1 = true ↔
        ∀ s ∈ joinScripts cfg, execOk (env.sqlRes s dd) = true)
    ∧ (ingestOk (env.ingestRes .gsc) = true →
       ingestOk (env.ingestRes .analytics) = true →
       ingestOk (env.ingestRes .rank) = true →
       (run_transformations cfg env (resolveDataDate cfg d clk)).1 = false →
       run_pipeline cfg env d clk
         = (false, [.ingestCall .gsc, .ingestCall .analytics, .ingestCall .rank]
             ++ (transformScripts cfg).map Event.scriptCall)) := by
  intro cfg env dd d clk
  refine ⟨run_transformations_fst cfg env dd, run_joins_fst cfg env dd, ?_⟩
  intro hg ha hr ht
  have hT : run_transformations cfg env (resolveDataDate cfg d clk)
      = (false, (transformScripts cfg).map Event.scriptCall) := by
    have h2 := run_transformations_snd cfg env (resolveDataDate cfg d clk)
    calc run_transformations cfg env (resolveDataDate cfg d clk)
        = ((run_transformations cfg env (resolveDataDate cfg d clk)).1,
           (run_transformations cfg env (resolveDataDate cfg d clk)).2) := rfl
      _ = (false, (transformScripts cfg).map Event.scriptCall) := by rw [ht, h2]
  simp [run_pipeline, hg, ha, hr, hT]

/-- Configuration used by the C6 witness. -/
def c6Cfg : PipeConfig :=
  { db_path := "seo_assessment.db", data_dir := "Data", gsc_dir := "gsc",
    gsc_pref := "gsc_", analytics_dir := "analytics", analytics_pref := "an_",
    rank_dir := "rank", rank_pref := "rk_",
    transform_dir := "sql/transform", transform_gsc := "transform_gsc.sql",
    transform_analytics := "transform_analytics.sql",
    transform_rank := "transform_rank.sql",
    join_dir := "sql/join", join_gsc_analytics := "join_gsc_analytics.sql",
    join_gsc_rank := "join_gsc_rank.sql",
    fact_dir := "sql/fact", fact_seo := "fact_seo.sql",
    export_csv := true, export_dir := "output", processing_data_date := none }

/-- Collaborator outcomes for the C6 witness: ingestion passes, every
transform script succeeds except the last, which fails. -/
def c6Env : PipeEnv :=
  { ingestRes := fun _ => .success 1 0 0 [],
    sqlRes := fun p _ =>
      if p == "sql/transform/transform_rank.sql" then
        .error "near RANK: syntax error" (baseName p)
      else .success (baseName p) "2025-01-01",
    exportOk := true }

/-- Witness for C6: with the last transform script failing, the pipeline
returns failure and its trace stops after the three transform scripts. -/
theorem claim6_witness :
    run_pipeline c6Cfg c6Env none 0
      = (false, [.ingestCall .gsc, .ingestCall .analytics, .ingestCall .rank]
          ++ (transformScripts c6Cfg).map Event.scriptCall) :=
  (claim6_stage_all_or_nothing c6Cfg c6Env "x" none 0).2.2 rfl rfl rfl (by decide)


/-! ## Claim C7 -/

/-- C7: with CSV export disabled in the configuration, the export step
is treated as success and no export file is ever written (no
`exportWrite` call appears in the trace, whatever happens elsewhere),
and — when every earlier stage passes — the overall pipeline result
equals the success of the single fact-table creation script. -/
theorem claim7_export_disabled :
    ∀ (cfg : PipeConfig) (env : PipeEnv) (d : Option String) (clk : Nat),
      cfg.export_csv = false →
      ((∀ s, Event.exportWrite s ∉ (run_pipeline cfg env d clk).2)
      ∧ (ingestOk (env.ingestRes .gsc) = true →
         ingestOk (env.ingestRes .analytics) = true →
         ingestOk (env.ingestRes .rank) = true →
         (run_transformations cfg env (resolveDataDate cfg d clk)).1 = true →
         (run_joins cfg env (resolveDataDate cfg d clk)).1 = true →
         (run_pipeline cfg env d clk).1
           = execOk (env.sqlRes (joinPath cfg.fact_dir cfg.fact_seo)
               (resolveDataDate cfg d clk)))) := by
  intro cfg env d clk hexp
  constructor
  · intro s
    by_cases hg : ingestOk (env.ingestRes .gsc) = true
    · by_cases ha : ingestOk (env.ingestRes .analytics) = true
      · by_cases hr : ingestOk (env.ingestRes .rank) = true
        · rcases hT : run_transformations cfg env (resolveDataDate cfg d clk) with ⟨tb, tev⟩
          have htev : tev = (transformScripts cfg).map Event.scriptCall := by
            have h2 := run_transformations_snd cfg env (resolveDataDate cfg d clk)
            rw [hT] at h2
            exact h2
          rcases tb with _ | _
          · simp [run_pipeline, hg, ha, hr, hT, htev]
          · rcases hJ : run_joins cfg env (resolveDataDate cfg d clk) with ⟨jb, jev⟩
            have hjev : jev = (joinScripts cfg).map Event.scriptCall := by
              have h2 := run_joins_snd cfg env (resolveDataDate cfg d clk)
              rw [hJ] at h2
              exact h2
            rcases jb with _ | _
            · simp [run_pipeline, hg, ha, hr, hT, htev, hJ, hjev]
            · by_cases hf : execOk (env.sqlRes (joinPath cfg.fact_dir cfg.fact_seo)
                  (resolveDataDate cfg d clk)) = true
              · simp [run_pipeline, hg, ha, hr, hT, htev, hJ, hjev,
                  create_fact_table, export_fact_table, hexp, hf]
              · rw [Bool.not_eq_true] at hf
                simp [run_pipeline, hg, ha, hr, hT, htev, hJ, hjev,
                  create_fact_table, export_fact_table, hexp, hf]
        · rw [Bool.not_eq_true] at hr
          simp [run_pipeline, hg, ha, hr]
      · rw [Bool.not_eq_true] at ha
        simp [run_pipeline, hg, ha]
    · rw [Bool.not_eq_true] at hg
      simp [run_pipeline, hg]
  · intro hg ha hr ht hj
    rcases hT : run_transformations cfg env (resolveDataDate cfg d clk) with ⟨tb, tev⟩
    rw [hT] at ht
    simp only at ht
    subst ht
    rcases hJ : run_joins cfg env (resolveDataDate cfg d clk) with ⟨jb, jev⟩
    rw [hJ] at hj
    simp only at hj
    subst hj
    by_cases hf : execOk (env.sqlRes (joinPath cfg.fact_dir cfg.fact_seo)
        (resolveDataDate cfg d clk)) = true
    · simp [run_pipeline, hg, ha, hr, hT, hJ, create_fact_table,
        export_fact_table, hexp, hf]
    · rw [Bool.not_eq_true] at hf
      simp [run_pipeline, hg, ha, hr, hT, hJ, create_fact_table,
        export_fact_table, hexp, hf]

/-- Configuration used by the C7 witness: export disabled. -/
def c7Cfg : PipeConfig :=
  { db_path := "seo_assessment.db", data_dir := "Data", gsc_dir := "gsc",
    gsc_pref := "gsc_", analytics_dir := "analytics", analytics_pref := "an_",
    rank_dir := "rank", rank_pref := "rk_",
    transform_dir := "sql/transform", transform_gsc := "transform_gsc.sql",
    transform_analytics := "transform_analytics.sql",
    transform_rank := "transform_rank.sql",
    join_dir := "sql/join", join_gsc_analytics := "join_gsc_analytics.sql",
    join_gsc_rank := "join_gsc_rank.sql",
    fact_dir := "sql/fact", fact_seo := "fact_seo.sql",
    export_csv := false, export_dir := "output", processing_data_date := none }

/-- Collaborator outcomes for the C7 witness: everything succeeds. -/
def c7Env : PipeEnv :=
  { ingestRes := fun _ => .success 1 0 0 [],
    sqlRes := fun p _ => .success (baseName p) "2025-01-01",
    exportOk := true }

/-- Witness for C7 on a concrete run: no export write happens and the
overall result equals the fact-script result. -/
theorem claim7_witness :
    Event.exportWrite "output" ∉ (run_pipeline c7Cfg c7Env none 0).2
  ∧ (run_pipeline c7Cfg c7Env none 0).1
      = execOk (c7Env.sqlRes (joinPath c7Cfg.fact_dir c7Cfg.fact_seo)
          (resolveDataDate c7Cfg none 0)) :=
  ⟨(claim7_export_disabled c7Cfg c7Env none 0 rfl).1 "output",
   (claim7_export_disabled c7Cfg c7Env none 0 rfl).2 rfl rfl rfl
     (by decide) (by decide)⟩

/-! ## Claim C10 -/

/-- C10: within the transform stage and within the join stage, every
script in the fixed list is executed (appears in the trace in list
order) regardless of any failures among them, and the stage boolean is
exactly the conjunction of all per-script successes, computed only
after all scripts were attempted. -/
theorem claim10_stage_runs_all_scripts :
    ∀ (cfg : PipeConfig) (env : PipeEnv) (dd : String),
      (run_transformations cfg env dd).2 = (transformScripts cfg).map Event.scriptCall
    ∧ (run_joins cfg env dd).2 = (joinScripts cfg).map Event.scriptCall
    ∧ (run_transformations cfg env dd).1
        = (transformScripts cfg).all (fun s => execOk (env.sqlRes s dd))
    ∧ (run_joins cfg env dd).1
        = (joinScripts cfg).all (fun s => execOk (env.sqlRes s dd)) := by
  intro cfg env dd
  refine ⟨run_transformations_snd cfg env dd, run_joins_snd cfg env dd, ?_, ?_⟩
  · rcases hb : (transformScripts cfg).all (fun s => execOk (env.sqlRes s dd)) with _ | _
    · rcases hf : (run_transformations cfg env dd).1 with _ | _
      · rfl
      · have hall := (run_transformations_fst cfg env dd).mp hf
        have : (transformScripts cfg).all (fun s => execOk (env.sqlRes s dd)) = true :=
          List.all_eq_true.mpr (fun x hx => hall x hx)
        rw [hb] at this
        cases this
    · exact (run_transformations_fst cfg env dd).mpr
        (fun s hs => List.all_eq_true.mp hb s hs)
  · rcases hb : (joinScripts cfg).all (fun s => execOk (env.sqlRes s dd)) with _ | _
    · rcases hf : (run_joins cfg env dd).1 with _ | _
      · rfl
      · have hall := (run_joins_fst cfg env dd).mp hf
        have : (joinScripts cfg).all (fun s => execOk (env.sqlRes s dd)) = true :=
          List.all_eq_true.mpr (fun x hx => hall x hx)
        rw [hb] at this
        cases this
    · exact (run_joins_fst cfg env dd).mpr
        (fun s hs => List.all_eq_true.mp hb s hs)


/-! ## Claim C4 -/

/-- Executor environment for the C4 counterexample: the script file does
not exist. -/
def c4EnvMissing : SqlEnv :=
  { fileExists := false, readFile := .ok "", run := fun _ => .ok () }

/-- Counterexample to C4 as stated: for a missing script file the
executor returns the early error dictionary of lines 56-60, which
carries a message but — contrary to the claim — no script base name
(the `errorNoName` shape, as opposed to the `error` shape produced by
the general exception handler). -/
theorem claim4_counterexample :
    execute_sql_file c4EnvMissing "/sql/transform_gsc.sql" (some "2025-01-01") 0
      = .errorNoName "SQL file not found: /sql/transform_gsc.sql" := by
  decide

/-- C4 (amended): the executor never raises past its boundary — for
every input it returns a structured outcome: `success` with the base
name and the batch date used, or an error with a message, which carries
the base name except in the missing-script early return, which carries
the message only. -/
theorem claim4_total_outcome :
    ∀ (env : SqlEnv) (p : String) (dd : Option String) (clk : Nat),
      (env.fileExists = false →
        execute_sql_file env p dd clk = .errorNoName ("SQL file not found: " ++ p))
    ∧ (env.fileExists = true →
        (∃ m, execute_sql_file env p dd clk
            = .error m (if p ≠ "" then baseName p else "unknown"))
        ∨ execute_sql_file env p dd clk
            = .success (baseName p) (match dd with | some y => y | none => dateStr clk)) := by
  intro env p dd clk
  constructor
  · intro h
    simp [execute_sql_file, h]
  · intro h
    rcases hr : env.readFile with m | content
    · exact Or.inl ⟨m, by simp [execute_sql_file, h, hr]⟩
    · rcases hrun : env.run (varDecl (match dd with | some y => y | none => dateStr clk)
          ++ content) with m | u
      · exact Or.inl ⟨m, by simp [execute_sql_file, h, hr, hrun]⟩
      · exact Or.inr (by simp [execute_sql_file, h, hr, hrun])

/-- Executor environment for the C4 witness: existing, readable script
whose execution succeeds. -/
def c4EnvOk : SqlEnv :=
  { fileExists := true, readFile := .ok "SELECT 1;", run := fun _ => .ok () }

/-- Witness for the amended C4 at two concrete inputs: the missing-file
early return, and a successful execution. -/
theorem claim4_witness :
    execute_sql_file c4EnvMissing "/sql/transform_rank.sql" (some "2025-01-01") 0
      = .errorNoName ("SQL file not found: " ++ "/sql/transform_rank.sql")
  ∧ ((∃ m, execute_sql_file c4EnvOk "/sql/fact_seo.sql" (some "2025-01-01") 0
        = .error m (if "/sql/fact_seo.sql" ≠ "" then baseName "/sql/fact_seo.sql"
                    else "unknown"))
     ∨ execute_sql_file c4EnvOk "/sql/fact_seo.sql" (some "2025-01-01") 0
        = .success (baseName "/sql/fact_seo.sql")
            (match (some "2025-01-01" : Option String) with
             | some y => y
             | none => dateStr 0)) :=
  ⟨(claim4_total_outcome c4EnvMissing "/sql/transform_rank.sql" (some "2025-01-01") 0).1 rfl,
   (claim4_total_outcome c4EnvOk "/sql/fact_seo.sql" (some "2025-01-01") 0).2 rfl⟩

/-! ## Claim C8 -/

/-- C8: for every successfully ingested file, if the target schema has a
`data_date` column then the rows inserted for the file are exactly its
CSV rows each extended by two trailing values — the batch date and one
run timestamp computed once for the whole file — and otherwise the rows
are inserted verbatim; in both cases every CSV row of the file has
exactly the header field count. -/
theorem claim8_audit_columns :
    ∀ (c : Conn) (fp : String) (f : CsvFile) (dd : String) (clk : Nat),
      (processFile c fp f dd clk).2.1 = true →
      ((c.db.schemaCols.contains "data_date" = true →
          (processFile c fp f dd clk).1.db.table
            = c.db.table ++ c.pendingRows
              ++ f.rows.map (fun r => r ++ [dd, tsStr clk])
        ∧ ∀ r ∈ f.rows, r.length = f.header.length)
      ∧ (c.db.schemaCols.contains "data_date" = false →
          (processFile c fp f dd clk).1.db.table
            = c.db.table ++ c.pendingRows ++ f.rows
        ∧ ∀ r ∈ f.rows, r.length = f.header.length)) := by
  intro c fp f dd clk hok
  have hwf : fileWf f = true := by
    rw [← processFile_ok c fp f dd clk]
    exact hok
  have hlenr : ∀ r ∈ f.rows, r.length = f.header.length := by
    intro r hr
    have := List.all_eq_true.mp hwf r hr
    simpa using this
  have hs := processFile_success c fp f dd clk hwf
  constructor
  · intro haud
    refine ⟨?_, hlenr⟩
    have hmem : "data_date" ∈ c.db.schemaCols := by
      simpa [List.contains] using haud
    rw [hs.2.1]
    simp [auditExtra, haud, hmem]
  · intro haud
    refine ⟨?_, hlenr⟩
    have hmem : "data_date" ∉ c.db.schemaCols := by
      simpa [List.contains] using haud
    rw [hs.2.1]
    simp [auditExtra, haud, hmem]

/-- Connection for the C8 witness, audit mode (schema has `data_date`). -/
def c8ConnAudit : Conn :=
  { db := { schemaCols := ["q", "p", "data_date", "run_date"],
            table := [["z", "9", "d0", "t0"]], ledgerExists := true, ledger := [] },
    pendingRows := [], pendingLedger := [] }

/-- Connection for the C8 witness, verbatim mode (no `data_date`). -/
def c8ConnPlain : Conn :=
  { db := { schemaCols := ["q", "p"], table := [], ledgerExists := true, ledger := [] },
    pendingRows := [], pendingLedger := [] }

/-- File for the C8 witness. -/
def c8File : CsvFile := { name := "gsc_w.csv", header := ["q", "p"], rows := [["1", "2"], ["3", "4"]] }

/-- Witness for C8 at concrete inputs, exercising both the audit-column
mode and the verbatim mode. -/
theorem claim8_witness :
    ((processFile c8ConnAudit "/d/gsc_w.csv" c8File "2025-03-03" 7).1.db.table
        = c8ConnAudit.db.table ++ c8ConnAudit.pendingRows
          ++ c8File.rows.map (fun r => r ++ ["2025-03-03", tsStr 7])
      ∧ ∀ r ∈ c8File.rows, r.length = c8File.header.length)
  ∧ ((processFile c8ConnPlain "/d/gsc_w.csv" c8File "2025-03-03" 7).1.db.table
        = c8ConnPlain.db.table ++ c8ConnPlain.pendingRows ++ c8File.rows
      ∧ ∀ r ∈ c8File.rows, r.length = c8File.header.length) :=
  ⟨(claim8_audit_columns c8ConnAudit "/d/gsc_w.csv" c8File "2025-03-03" 7 (by decide)).1 rfl,
   (claim8_audit_columns c8ConnPlain "/d/gsc_w.csv" c8File "2025-03-03" 7 (by decide)).2 rfl⟩


/-! ## Claim C9 -/

/-- C9: ledger unavailability is never fatal.  When `log_file_dtl` is
missing, the completed-files query returns the empty list instead of
raising, a ledger write leaves the connection completely untouched
(swallowed failure, no commit), and ingestion of actual data proceeds:
the run still returns a `success` or `partial` aggregate, and with all
matching files well formed every one of their rows is inserted into the
target table. -/
theorem claim9_ledger_nonfatal :
    (∀ c : Conn, c.db.ledgerExists = false → get_already_ingested_files c = [])
  ∧ (∀ (c : Conn) (fp st : String) (dd : Option String) (clk : Nat),
      c.db.ledgerExists = false → (log_ingestion c fp st dd clk).1 = c)
  ∧ (∀ (files : List CsvFile) (dirPath pref : String) (db : Db) (d : String) (clk : Nat),
      db.ledgerExists = false →
      matchingOf files pref ≠ [] →
      ((∃ sc k rs, (ingest_csv_to_sqlite (some files) dirPath pref db (some d) clk).1
            = .success sc 0 k rs)
        ∨ (∃ sc fc k rs, (ingest_csv_to_sqlite (some files) dirPath pref db (some d) clk).1
            = .partialRes sc fc k rs))
    ∧ ((∀ f ∈ matchingOf files pref, fileWf f = true) →
        (ingest_csv_to_sqlite (some files) dirPath pref db (some d) clk).2.1.table.length
          = db.table.length + ((matchingOf files pref).map (fun f => f.rows.length)).sum)) := by
  refine ⟨?_, ?_, ?_⟩
  · intro c h
    simp [get_already_ingested_files, h]
  · intro c fp st dd clk h
    rcases dd with _ | x <;> simp [log_ingestion, h]
  · intro files dirPath pref db d clk hl hne
    have hing : get_already_ingested_files
        { db := db, pendingRows := [], pendingLedger := [] } = [] := by
      simp [get_already_ingested_files, hl]
    have hnf : newFilesOf dirPath
        (get_already_ingested_files { db := db, pendingRows := [], pendingLedger := [] })
        (matchingOf files pref) = matchingOf files pref := by
      rw [hing]
      simp [newFilesOf, List.contains]
    have hE : (matchingOf files pref).isEmpty = false := by
      rcases hm : matchingOf files pref with _ | ⟨a, as⟩
      · exact absurd hm hne
      · rfl
    have hNE : (newFilesOf dirPath
        (get_already_ingested_files { db := db, pendingRows := [], pendingLedger := [] })
        (matchingOf files pref)).isEmpty = false := by
      rw [hnf]
      exact hE
    rcases hP : processFiles { db := db, pendingRows := [], pendingLedger := [] }
        dirPath d clk (matchingOf files pref) with ⟨c2, sc, ec, rs, clk2⟩
    constructor
    · by_cases hec : ec > 0
      · refine Or.inr ⟨sc, ec, (matchingOf files pref).length
          - (matchingOf files pref).length, rs, ?_⟩
        simp only [ingest_csv_to_sqlite, ingest_core, hE, Bool.false_eq_true, if_false,
          hNE, hnf, hP, hec, if_true, gt_iff_lt]
      · refine Or.inl ⟨sc, (matchingOf files pref).length
          - (matchingOf files pref).length, rs, ?_⟩
        simp only [ingest_csv_to_sqlite, ingest_core, hE, Bool.false_eq_true, if_false,
          hNE, hnf, hP]
        simp [hec]
    · intro hwf
      have hlen := processFiles_len dirPath d (matchingOf files pref)
        { db := db, pendingRows := [], pendingLedger := [] } clk hwf rfl
      rw [hP] at hlen
      simp only at hlen
      by_cases hec : ec > 0 <;>
        simp only [ingest_csv_to_sqlite, ingest_core, hE, Bool.false_eq_true, if_false,
          hNE, hnf, hP] <;>
        simp [hec, Conn.close] <;>
        exact hlen.1

/-- Database for the C9 witness: the ledger table does not exist. -/
def c9Db : Db :=
  { schemaCols := ["c1"], table := [], ledgerExists := false, ledger := [] }

/-- File for the C9 witness. -/
def c9File : CsvFile := { name := "rk_1.csv", header := ["c1"], rows := [["v"]] }

/-- Witness for C9 at concrete inputs: empty completed list, untouched
connection on a swallowed ledger write, and a run over a ledgerless
database that still ingests the data. -/
theorem claim9_witness :
    get_already_ingested_files { db := c9Db, pendingRows := [], pendingLedger := [] } = []
  ∧ (log_ingestion { db := c9Db, pendingRows := [], pendingLedger := [] }
        "/d/rk_1.csv" "failed" (some "2025-01-01") 0).1
      = { db := c9Db, pendingRows := [], pendingLedger := [] }
  ∧ ((∃ sc k rs, (ingest_csv_to_sqlite (some [c9File]) "/d" "rk_" c9Db
          (some "2025-01-01") 0).1 = .success sc 0 k rs)
      ∨ (∃ sc fc k rs, (ingest_csv_to_sqlite (some [c9File]) "/d" "rk_" c9Db
          (some "2025-01-01") 0).1 = .partialRes sc fc k rs))
  ∧ (ingest_csv_to_sqlite (some [c9File]) "/d" "rk_" c9Db (some "2025-01-01") 0).2.1.table.length
      = c9Db.table.length + ((matchingOf [c9File] "rk_").map (fun f => f.rows.length)).sum :=
  ⟨claim9_ledger_nonfatal.1 _ rfl,
   claim9_ledger_nonfatal.2.1 _ "/d/rk_1.csv" "failed" (some "2025-01-01") 0 rfl,
   (claim9_ledger_nonfatal.2.2 [c9File] "/d" "rk_" c9Db "2025-01-01" 0 rfl (by decide)).1,
   (claim9_ledger_nonfatal.2.2 [c9File] "/d" "rk_" c9Db "2025-01-01" 0 rfl (by decide)).2
     (by decide)⟩

end SeoAssessment
